import Mathlib

/-!
Shallow embedding of the credential-coordinating fetch queue
(`src/FetchQueue.mjs`, class `FetchQueue extends Fetch`) together with the
header-injection fragment of its `send` method.

Conventions of the embedding:
* JS timestamps (`Date.now()`) are `Int` parameters threaded explicitly.
* The three config callbacks (`generate`, `renew`, `refresh`) are opaque
  promises in the source; here their settlement is an oracle value
  (`COutcome`) carrying the store contents they leave behind (the source
  expects them to mutate `accessStore`/`refreshStore` as a side effect)
  and, on rejection, an error identifier.
* Presence of an optional config callback (`!!this.config.x`) is a Bool
  capability flag; `config.connected` is likewise a Bool.
* `pending` keeps the source's numeric encoding NONE = 0, ASYNC = 1,
  SYNC = 2.
* Invocation counters (`genCount`, `renewCount`, `refreshCount`) count how
  many times each config callback has been invoked; they are the
  observables the mutual-exclusion claims quantify over.
-/

namespace FetchQueue

/-- `FetchQueue.NONE` (source line 45). -/
def NONE : Nat := 0

/-- `FetchQueue.ASYNC` (source line 46). -/
def ASYNC : Nat := 1

/-- `FetchQueue.SYNC` (source line 47). -/
def SYNC : Nat := 2

/-- A credential record: `{ token, delay, exp }` (source lines 52-62). -/
structure Store where
  token : Option String
  delay : Int
  exp : Int
deriving DecidableEq, Repr

/-- The zeroed store written by `resetAccess` / `resetRefresh`. -/
def emptyStore : Store := { token := none, delay := 0, exp := 0 }

/-- Capability view of the `Config` object: which callbacks are present
(truthiness of `config.generate` / `config.renew` / `config.refresh`) and
the `connected` flag. -/
structure Config where
  hasGenerate : Bool
  hasRenew : Bool
  hasRefresh : Bool
  connected : Bool
deriving DecidableEq, Repr

/-- Coordinator state: config, `pending`, the two stores, the private
`#queue` (entries identified by arrival id), the list of entries already
dispatched by `runQueue` (in dispatch order), and callback-invocation
counters. -/
structure QState where
  config : Config
  pending : Nat
  accessStore : Store
  refreshStore : Store
  queue : List Nat
  dispatched : List Nat
  genCount : Nat
  renewCount : Nat
  refreshCount : Nat
deriving DecidableEq, Repr

/-- `resetAccess()` (source lines 156-160). -/
def resetAccess (s : QState) : QState := { s with accessStore := emptyStore }

/-- `resetRefresh()` (source lines 162-166). -/
def resetRefresh (s : QState) : QState := { s with refreshStore := emptyStore }

/-- `generateValid()` (source lines 143-145):
`!!this.config.generate && this.config.connected`. -/
def generateValid (s : QState) : Bool :=
  s.config.hasGenerate && s.config.connected

/-- `renewValid(timestamp)` (source lines 147-150):
`createdAt = exp - delay; !!renew && createdAt < timestamp - 1000*60*15`. -/
def renewValid (s : QState) (t : Int) : Bool :=
  s.config.hasRenew &&
    decide (s.accessStore.exp - s.accessStore.delay < t - 1000 * 60 * 15)

/-- `refreshValid(timestamp)` (source lines 152-154):
`!!this.config.refresh && this.refreshStore.exp > timestamp`. -/
def refreshValid (s : QState) (t : Int) : Bool :=
  s.config.hasRefresh && decide (s.refreshStore.exp > t)

/-- Synchronous prefix of `generate()` once the `config.generate` guard has
passed (source lines 81-84): set `pending = SYNC` and invoke the callback. -/
def startGenerate (s : QState) : QState :=
  { s with pending := SYNC, genCount := s.genCount + 1 }

/-- Synchronous prefix of `renew()` once the `config.renew` guard has passed
(source lines 100-103): set `pending = ASYNC` and invoke the callback. -/
def startRenew (s : QState) : QState :=
  { s with pending := ASYNC, renewCount := s.renewCount + 1 }

/-- Synchronous prefix of `refresh()` once the `config.refresh` guard has
passed (source lines 126-129): set `pending = SYNC` and invoke the callback. -/
def startRefresh (s : QState) : QState :=
  { s with pending := SYNC, refreshCount := s.refreshCount + 1 }

/-- Effect of `runQueue()` (source lines 271-285) on the coordinator state:
every currently queued handler is shifted off and its replay dispatched, in
FIFO order.  (The per-handler dispatch structure is modelled separately by
`runQueue` below.) -/
def runQueueFx (s : QState) : QState :=
  { s with queue := [], dispatched := s.dispatched ++ s.queue }

/-- `isQueue()` (source lines 229-269), the admission decision, evaluated at
timestamp `t` (the `Date.now()` of line 234).  Returns the updated state and
the decision (`true` = queue the call).  Starting a credential operation is
modelled by its synchronous prefix (`start*`); the body of `isQueue` contains
no `await`, so it executes atomically. -/
def isQueue (t : Int) (s : QState) : QState × Bool :=
  if s.pending = SYNC then (s, true)
  else if s.accessStore.exp > t then
    -- access valid: maybe fire a background renew, never queue
    if renewValid s t = true ∧ s.pending = NONE then (startRenew s, false)
    else (s, false)
  else
    let s := resetAccess s
    if refreshValid s t = true then
      let s := if s.pending = NONE then startRefresh s else s
      ({ s with pending := SYNC }, true)
    else
      let s := resetRefresh s
      if generateValid s = true then
        let s := if s.pending = NONE then startGenerate s else s
        ({ s with pending := SYNC }, true)
      else
        (runQueueFx s, false)

/-- A burst of admissions: each incoming call runs `isQueue` atomically at
its own timestamp, before any in-flight callback settles. -/
def admitMany (ts : List Int) (s : QState) : QState :=
  ts.foldl (fun s t => (isQueue t s).1) s

/-- Settlement of a config callback: it resolves or rejects, leaving the two
stores with the given contents (the callbacks are expected to mutate the
stores as their side effect; a rejecting callback may have partially
mutated them too, hence the stores on `fail` as well). -/
inductive COutcome
  | ok (acc ref : Store)
  | fail (e : Nat) (acc ref : Store)
deriving DecidableEq, Repr

/-- Write the store contents a settled callback left behind. -/
def applyStores (s : QState) (acc ref : Store) : QState :=
  { s with accessStore := acc, refreshStore := ref }

/-- Observable events of a credential-operation chain. -/
inductive Ev
  | invokeGenerate
  | invokeRenew
  | invokeRefresh
  | settle
deriving DecidableEq, Repr

/-- `true` on callback-invocation events. -/
def isInvoke : Ev → Bool
  | Ev.settle => false
  | _ => true

/-- `true` on the `finally` event (`pending = NONE; runQueue()`). -/
def isSettle : Ev → Bool
  | Ev.settle => true
  | _ => false

/-- Number of `finally` (pending-reset-plus-drain) executions in a trace. -/
def settleCount (tr : List Ev) : Nat := tr.countP isSettle

/-- Number of config-callback invocations in a trace. -/
def invokeCount (tr : List Ev) : Nat := tr.countP isInvoke

/-- Result of running a credential operation to settlement: final state, the
promise's outcome as seen by whoever awaits it, and the event trace in
execution order. -/
structure OpResult where
  state : QState
  result : Except Nat Unit
  trace : List Ev
deriving Repr

/-- The `finally` handler shared by `generate`/`renew`/`refresh`
(source lines 89-92, 115-118, 137-140): `pending = NONE` then `runQueue()`. -/
def settleFx (s : QState) : QState :=
  runQueueFx { s with pending := NONE }

/-- `generate()` run to settlement (source lines 76-93), with the
`config.generate` settlement given by `o`.  On rejection the `catch` sets
`config.connected = false` and rethrows; the `finally` resets `pending` and
drains the queue. -/
def generateRun (o : COutcome) (s : QState) : OpResult :=
  if s.config.hasGenerate = false then { state := s, result := .ok (), trace := [] }
  else
    let s := startGenerate s
    match o with
    | .ok acc ref =>
      { state := settleFx (applyStores s acc ref), result := .ok ()
        trace := [Ev.invokeGenerate, Ev.settle] }
    | .fail e acc ref =>
      let s := applyStores s acc ref
      let s := { s with config := { s.config with connected := false } }
      { state := settleFx s, result := .error e
        trace := [Ev.invokeGenerate, Ev.settle] }

/-- `refresh()` run to settlement (source lines 121-141).  `o` is the
settlement of `config.refresh`; if the `catch` falls back to `generate()`,
`oGen` is the settlement of `config.generate`.  The chained `generate()`
promise is awaited before `refresh`'s own `finally` runs. -/
def refreshRun (o oGen : COutcome) (s : QState) : OpResult :=
  if s.config.hasRefresh = false then { state := s, result := .ok (), trace := [] }
  else
    let s := startRefresh s
    match o with
    | .ok acc ref =>
      { state := settleFx (applyStores s acc ref), result := .ok ()
        trace := [Ev.invokeRefresh, Ev.settle] }
    | .fail e acc ref =>
      let s := resetRefresh (applyStores s acc ref)
      if generateValid s = true then
        let r := generateRun oGen s
        { state := settleFx r.state, result := r.result
          trace := Ev.invokeRefresh :: r.trace ++ [Ev.settle] }
      else
        { state := settleFx s, result := .error e
          trace := [Ev.invokeRefresh, Ev.settle] }

/-- `renew()` run to settlement (source lines 95-119).  `o` is the
settlement of `config.renew`; `tCatch` is the `Date.now()` consulted inside
the `catch` (line 106); `oRef`/`oGen` are the settlements of the chained
callbacks if the catch falls back to `refresh()` / `generate()`. -/
def renewRun (o oRef oGen : COutcome) (tCatch : Int) (s : QState) : OpResult :=
  if s.config.hasRenew = false then { state := s, result := .ok (), trace := [] }
  else
    let s := startRenew s
    match o with
    | .ok acc ref =>
      { state := settleFx (applyStores s acc ref), result := .ok ()
        trace := [Ev.invokeRenew, Ev.settle] }
    | .fail e acc ref =>
      let s := resetAccess (applyStores s acc ref)
      if refreshValid s tCatch = true then
        let r := refreshRun oRef oGen s
        { state := settleFx r.state, result := r.result
          trace := Ev.invokeRenew :: r.trace ++ [Ev.settle] }
      else
        let s := resetRefresh s
        if generateValid s = true then
          let r := generateRun oGen s
          { state := settleFx r.state, result := r.result
            trace := Ev.invokeRenew :: r.trace ++ [Ev.settle] }
        else
          { state := settleFx s, result := .error e
            trace := [Ev.invokeRenew, Ev.settle] }

/-- One entry of the private `#queue` (source lines 183-189): a zero-argument
replay of the original `send(url, options)` plus the original caller's
`resolve`/`reject` continuations, identified here by its arrival id. -/
structure Handler where
  id : Nat
deriving DecidableEq, Repr

/-- `runQueue()` (source lines 271-285), dispatch structure: shift the head
handler, invoke its replay and attach the (eventual) result to that
handler's own continuations, then — without waiting for the replay to
finish — recurse while the queue is non-empty.  `outcome h` is the eventual
settlement of handler `h`'s replay; the returned list pairs each handler
with the settlement delivered to its continuations, in dispatch order. -/
def runQueue (outcome : Nat → Except Nat Nat) : List Handler → List (Nat × Except Nat Nat)
  | [] => []
  | h :: rest =>
    (h.id, outcome h.id) ::
      (match rest with
       | [] => []
       | r :: rs => runQueue outcome (r :: rs))

/-- Settlement of one `super.send` transport exchange (the external Fetch
collaborator): a response, or an `HttpException` carrying `status`. -/
inductive TOut
  | ok
  | err (status : Nat)
deriving DecidableEq, Repr

/-- Decision core of `handleErrors(e, ctx)` (source lines 208-220) at
timestamp `t` (the `Date.now()` of line 212): on a 401, reset the access
store and retry (`true`) when `refreshValid(now) || generateValid()`;
otherwise (`false`) the optional `config.handleErrors` hook runs and the
error is rethrown unchanged. -/
def handleErrorsStep (status : Nat) (t : Int) (s : QState) : QState × Bool :=
  if status = 401 then
    let s := resetAccess s
    if refreshValid s t = true ∨ generateValid s = true then (s, true)
    else (s, false)
  else (s, false)

/-- Default settlement used when an oracle list runs out. -/
def defaultOutcome : COutcome := COutcome.ok emptyStore emptyStore

/-- Outcome of one top-level `send(url, options)` call run to settlement:
final coordinator state, the caller-visible result (`.error status` when an
`HttpException` is rethrown), and how many transport exchanges were made on
the caller's behalf. -/
structure SendResult where
  state : QState
  result : Except Nat Unit
  attempts : Nat
deriving Repr

/-- A single caller's `send(url, options)` (source lines 178-220) run to
settlement under the cooperative single-threaded schedule, with oracles:
`tr` are the settlements of successive transport exchanges, `ops` those of
successive config-callback invocations, `ts` the successive `Date.now()`
reads (one per `isQueue`, one per 401 check in `handleErrors`; an exhausted
list reads 0).  When admission queues the call, the triggered operation
runs to settlement (`refreshRun`/`generateRun`) and its `finally`'s
`runQueue()` replays the call: the recursion.  A 401 retry
(`handleErrors` line 213) is likewise a recursion.  `fuel` bounds the
recursion depth; `none` means the model ran out of fuel (or the single
caller would block forever behind `pending == SYNC`).  The ASYNC `renew`
fired while the access token is valid is started (its synchronous prefix)
but its settlement is not scheduled in this single-caller model; the
scenarios proved below do not configure `renew`. -/
def send1 : Nat → List TOut → List COutcome → List Int → QState → Option SendResult
  | 0, _, _, _, _ => none
  | Nat.succ fuel, tr, ops, ts, s0 =>
    let t := ts.headD 0
    let ts1 := ts.tail
    if s0.pending = SYNC then none
    else if s0.accessStore.exp > t then
      -- admission says proceed; maybe fire a background renew
      let s1 := if renewValid s0 t = true ∧ s0.pending = NONE then startRenew s0 else s0
      match tr with
      | [] => none
      | tout :: tr1 =>
        match tout with
        | TOut.ok => some { state := s1, result := .ok (), attempts := 1 }
        | TOut.err st =>
          let t2 := ts1.headD 0
          let ts2 := ts1.tail
          let p := handleErrorsStep st t2 s1
          if p.2 = true then
            match send1 fuel tr1 ops ts2 p.1 with
            | none => none
            | some r => some { r with attempts := r.attempts + 1 }
          else some { state := p.1, result := .error st, attempts := 1 }
    else
      let s1 := resetAccess s0
      if refreshValid s1 t = true then
        -- queued behind refresh(); replay when its finally drains the queue
        let r := refreshRun (ops.headD defaultOutcome)
          ((ops.drop 1).headD defaultOutcome) s1
        send1 fuel tr (ops.drop (invokeCount r.trace)) ts1 r.state
      else
        let s2 := resetRefresh s1
        if generateValid s2 = true then
          -- queued behind generate(); replay when its finally drains
          let r := generateRun (ops.headD defaultOutcome) s2
          send1 fuel tr (ops.drop (invokeCount r.trace)) ts1 r.state
        else
          -- no recovery path: drain and proceed without a usable token
          let s3 := runQueueFx s2
          match tr with
          | [] => none
          | tout :: tr1 =>
            match tout with
            | TOut.ok => some { state := s3, result := .ok (), attempts := 1 }
            | TOut.err st =>
              let t2 := ts1.headD 0
              let ts2 := ts1.tail
              let p := handleErrorsStep st t2 s3
              if p.2 = true then
                match send1 fuel tr1 ops ts2 p.1 with
                | none => none
                | some r => some { r with attempts := r.attempts + 1 }
              else some { state := p.1, result := .error st, attempts := 1 }

/-- Call options as seen by `FetchQueue.send`: the `headers` object (a
string-keyed map) plus all remaining option fields, opaque here. -/
structure Options where
  headers : String → Option String
  rest : String

/-- The header-injection step of `send` (source lines 193-198):
`if (this.accessStore.token) options.headers = { ...options.headers,
Authorization: Bearer <token> }`.  The JS guard is truthiness, so a `null`
token and an empty-string token both skip injection; object spread keeps
every existing key, then the `Authorization` key is overwritten. -/
def applyAuth : Option String → Options → Options
  | none, o => o
  | some tk, o =>
    if tk = "" then o
    else
      { o with headers := fun k =>
          if k = "Authorization" then some ("Bearer " ++ tk) else o.headers k }

-- ----------------------------------------------------------------------
-- Concrete sample states used by witnesses and counterexamples
-- ----------------------------------------------------------------------

/-- A coordinator with only `generate` configured (`connected` true), both
stores invalid, nothing pending. -/
def cx1 : QState :=
  { config := { hasGenerate := true, hasRenew := false, hasRefresh := false,
                connected := true }
    pending := NONE, accessStore := emptyStore, refreshStore := emptyStore
    queue := [7, 8], dispatched := [], genCount := 0, renewCount := 0
    refreshCount := 0 }

/-- A coordinator with all three strategies configured and both stores
empty; used to exercise the renew fallback chain. -/
def cxChain : QState :=
  { config := { hasGenerate := true, hasRenew := true, hasRefresh := true,
                connected := true }
    pending := NONE, accessStore := emptyStore, refreshStore := emptyStore
    queue := [], dispatched := [], genCount := 0, renewCount := 0
    refreshCount := 0 }

/-- A refresh store valid until timestamp 100. -/
def refShort : Store := { token := some "r", delay := 0, exp := 100 }

/-- A coordinator observed mid-renew (`pending == ASYNC`) whose access token
has already expired while its refresh token is still valid. -/
def cxAsync : QState :=
  { config := { hasGenerate := false, hasRenew := true, hasRefresh := true,
                connected := false }
    pending := ASYNC, accessStore := emptyStore, refreshStore := refShort
    queue := [], dispatched := [], genCount := 0, renewCount := 1
    refreshCount := 0 }

/-- A renew-due coordinator: access token valid at `t = 1000000` but issued
long ago (`delay` pushes `createdAt` to 0), `renew` configured. -/
def cxRenewDue : QState :=
  { config := { hasGenerate := false, hasRenew := true, hasRefresh := false,
                connected := false }
    pending := NONE
    accessStore := { token := some "a", delay := 2000000, exp := 2000000 }
    refreshStore := emptyStore
    queue := [], dispatched := [], genCount := 0, renewCount := 0
    refreshCount := 0 }

/-- A coordinator with no strategy configured at all, expired access token,
two callers parked in the queue. -/
def cxBare : QState :=
  { config := { hasGenerate := false, hasRenew := false, hasRefresh := false,
                connected := false }
    pending := NONE
    accessStore := { token := some "stale", delay := 0, exp := 5 }
    refreshStore := { token := some "r", delay := 0, exp := 7 }
    queue := [3, 4], dispatched := [9], genCount := 0, renewCount := 0
    refreshCount := 0 }

/-- Access token restored by a successful refresh callback. -/
def accFresh : Store := { token := some "a1", delay := 0, exp := 1000000 }

/-- Long-lived refresh token. -/
def refLong : Store := { token := some "r0", delay := 0, exp := 1000000000 }

/-- Single-caller 401 scenario: valid access token, `refresh` configured
with a long-lived refresh token, no `generate`, no `renew`. -/
def cx401 : QState :=
  { config := { hasGenerate := false, hasRenew := false, hasRefresh := true,
                connected := false }
    pending := NONE
    accessStore := { token := some "a0", delay := 0, exp := 1000000 }
    refreshStore := refLong
    queue := [], dispatched := [], genCount := 0, renewCount := 0
    refreshCount := 0 }

/-- Sample caller options: one custom header, opaque remainder. -/
def cxOptions : Options :=
  { headers := fun k => if k = "Accept" then some "application/json" else none
    rest := "method=GET" }

-- ----------------------------------------------------------------------
-- Shared helper lemmas
-- ----------------------------------------------------------------------

/-- While `pending == SYNC`, admission queues and changes nothing. -/
theorem isQueue_of_sync (t : Int) (s : QState) (h : s.pending = SYNC) :
    isQueue t s = (s, true) := by
  simp [isQueue, h]

/-- A burst of admissions under `pending == SYNC` leaves the state fixed. -/
theorem admitMany_of_sync (ts : List Int) (s : QState) (h : s.pending = SYNC) :
    admitMany ts s = s := by
  induction ts with
  | nil => rfl
  | cons t ts ih =>
    simp only [admitMany, List.foldl_cons] at *
    rw [isQueue_of_sync t s h]
    exact ih

-- ----------------------------------------------------------------------
-- C1
-- ----------------------------------------------------------------------

/-- C1: at most one credential operation is in flight at a time, `pending`
being the mutual-exclusion flag: for ANY burst of `1 + ts.length` calls to
`send` arriving (at arbitrary timestamps) while both the access and refresh
stores are invalid, no operation is in flight, and `generate` is configured
with `connected` true, the `config.generate` callback is invoked exactly
once — the first admission starts it and flips `pending` to `SYNC`, and
every later admission queues without starting anything. -/
theorem C1_generate_invoked_once (s : QState) (t : Int) (ts : List Int)
    (hp : s.pending = NONE)
    (ha : s.accessStore.exp ≤ t)
    (hr : s.config.hasRefresh = false ∨ s.refreshStore.exp ≤ t)
    (hg : s.config.hasGenerate = true)
    (hc : s.config.connected = true) :
    (admitMany (t :: ts) s).genCount = s.genCount + 1 ∧
    (admitMany (t :: ts) s).renewCount = s.renewCount ∧
    (admitMany (t :: ts) s).refreshCount = s.refreshCount ∧
    (admitMany (t :: ts) s).pending = SYNC ∧
    (isQueue t s).2 = true := by
  have hfirst : isQueue t s =
      ({ resetRefresh (resetAccess s) with
          pending := SYNC, genCount := s.genCount + 1 }, true) := by
    have hnotv : ¬ s.accessStore.exp > t := not_lt.mpr ha
    rcases hr with h | h
    · simp [isQueue, hp, hnotv, refreshValid, generateValid, resetAccess,
        resetRefresh, hg, hc, h, NONE, SYNC, startGenerate, emptyStore]
    · have hlt : ¬ s.refreshStore.exp > t := not_lt.mpr h
      simp [isQueue, hp, hnotv, refreshValid, generateValid, resetAccess,
        resetRefresh, hg, hc, hlt, NONE, SYNC, startGenerate, emptyStore]
  have hstep : admitMany (t :: ts) s =
      admitMany ts ({ resetRefresh (resetAccess s) with
          pending := SYNC, genCount := s.genCount + 1 }) := by
    simp only [admitMany, List.foldl_cons, hfirst]
  rw [hstep, admitMany_of_sync _ _ (by rfl)]
  refine ⟨rfl, rfl, rfl, rfl, ?_⟩
  rw [hfirst]

/-- Witness for C1 at a concrete state and a burst of three calls. -/
theorem C1_generate_invoked_once_witness :
    ((cx1.pending = NONE ∧ cx1.accessStore.exp ≤ 10 ∧
      (cx1.config.hasRefresh = false ∨ cx1.refreshStore.exp ≤ 10) ∧
      cx1.config.hasGenerate = true ∧ cx1.config.connected = true) ∧
     ((admitMany (10 :: [20, 30]) cx1).genCount = cx1.genCount + 1 ∧
      (admitMany (10 :: [20, 30]) cx1).renewCount = cx1.renewCount ∧
      (admitMany (10 :: [20, 30]) cx1).refreshCount = cx1.refreshCount ∧
      (admitMany (10 :: [20, 30]) cx1).pending = SYNC ∧
      (isQueue 10 cx1).2 = true)) :=
  ⟨⟨by decide, by decide, Or.inl (by decide), by decide, by decide⟩,
   C1_generate_invoked_once cx1 10 [20, 30] (by decide) (by decide)
     (Or.inl (by decide)) (by decide) (by decide)⟩

-- ----------------------------------------------------------------------
-- C6
-- ----------------------------------------------------------------------

/-- C6: for every incoming call with `pending != SYNC` and
`accessStore.exp > now`, admission returns proceed (never queue), and a
background renew is started — `pending` set to `ASYNC` and the
`config.renew` callback invoked — exactly when `renew` is configured,
`accessStore.exp - accessStore.delay < now - 1000*60*15`, and
`pending == NONE`; in every other case the state is untouched. -/
theorem C6_background_renew (s : QState) (t : Int)
    (hp : s.pending ≠ SYNC) (ha : s.accessStore.exp > t) :
    (isQueue t s).2 = false ∧
    ((s.config.hasRenew = true ∧
      s.accessStore.exp - s.accessStore.delay < t - 1000 * 60 * 15 ∧
      s.pending = NONE) →
      isQueue t s =
        ({ s with pending := ASYNC, renewCount := s.renewCount + 1 }, false)) ∧
    (¬ (s.config.hasRenew = true ∧
        s.accessStore.exp - s.accessStore.delay < t - 1000 * 60 * 15 ∧
        s.pending = NONE) →
      isQueue t s = (s, false)) := by
  refine ⟨?_, ?_, ?_⟩
  · by_cases hdue : renewValid s t = true ∧ s.pending = NONE
    · simp [isQueue, hp, ha, hdue, NONE, SYNC]
    · simp [isQueue, hp, ha, hdue]
  · rintro ⟨h1, h2, h3⟩
    have hdue : renewValid s t = true ∧ s.pending = NONE :=
      ⟨by simp [renewValid, h1]; omega, h3⟩
    simp [isQueue, hp, ha, hdue, startRenew, NONE, SYNC]
  · intro hno
    have hdue : ¬ (renewValid s t = true ∧ s.pending = NONE) := by
      rintro ⟨h1, h2⟩
      simp [renewValid] at h1
      obtain ⟨h1a, h1b⟩ := h1
      exact hno ⟨h1a, by omega, h2⟩
    simp [isQueue, hp, ha, hdue]

/-- Witness for C6 at a renew-due state: the background renew fires. -/
theorem C6_background_renew_witness :
    ((cxRenewDue.pending ≠ SYNC ∧ cxRenewDue.accessStore.exp > 1000000) ∧
     ((isQueue 1000000 cxRenewDue).2 = false ∧
      ((cxRenewDue.config.hasRenew = true ∧
        cxRenewDue.accessStore.exp - cxRenewDue.accessStore.delay <
          1000000 - 1000 * 60 * 15 ∧
        cxRenewDue.pending = NONE) →
        isQueue 1000000 cxRenewDue =
          ({ cxRenewDue with pending := ASYNC, renewCount := cxRenewDue.renewCount + 1 }, false)) ∧
      (¬ (cxRenewDue.config.hasRenew = true ∧
          cxRenewDue.accessStore.exp - cxRenewDue.accessStore.delay <
            1000000 - 1000 * 60 * 15 ∧
          cxRenewDue.pending = NONE) →
        isQueue 1000000 cxRenewDue = (cxRenewDue, false)))) :=
  ⟨⟨by decide, by decide⟩,
   C6_background_renew cxRenewDue 1000000 (by decide) (by decide)⟩

-- ----------------------------------------------------------------------
-- C7
-- ----------------------------------------------------------------------

/-- C7 as stated is false: while `pending == ASYNC` a new call whose
admission finds the access token EXPIRED and the refresh token valid is
queued (`isQueue` returns `true`), not allowed to proceed. -/
theorem C7_counterexample :
    cxAsync.pending = ASYNC ∧ (isQueue 50 cxAsync).2 = true := by
  decide

/-- C7 amended: while `pending == ASYNC`, a new incoming call proceeds
immediately — unqueued, state untouched — as long as the access token is
still valid; but once the access token has expired, the call is queued
whenever refresh (or, failing that, generate) is valid, forcing
`pending = SYNC` without starting a second operation (no callback counter
moves). -/
theorem C7_async_admission (s : QState) (t : Int) (hp : s.pending = ASYNC) :
    (s.accessStore.exp > t → isQueue t s = (s, false)) ∧
    (s.accessStore.exp ≤ t → s.config.hasRefresh = true →
      s.refreshStore.exp > t →
      (isQueue t s).2 = true ∧ (isQueue t s).1.pending = SYNC ∧
      (isQueue t s).1.genCount = s.genCount ∧
      (isQueue t s).1.renewCount = s.renewCount ∧
      (isQueue t s).1.refreshCount = s.refreshCount) ∧
    (s.accessStore.exp ≤ t →
      (s.config.hasRefresh = false ∨ s.refreshStore.exp ≤ t) →
      s.config.hasGenerate = true → s.config.connected = true →
      (isQueue t s).2 = true ∧ (isQueue t s).1.pending = SYNC ∧
      (isQueue t s).1.genCount = s.genCount ∧
      (isQueue t s).1.renewCount = s.renewCount ∧
      (isQueue t s).1.refreshCount = s.refreshCount) := by
  have hps : ¬ s.pending = SYNC := by simp [hp, ASYNC, SYNC]
  have hpn : ¬ s.pending = NONE := by simp [hp, ASYNC, NONE]
  refine ⟨?_, ?_, ?_⟩
  · intro ha
    have : ¬ (renewValid s t = true ∧ s.pending = NONE) := by
      rintro ⟨_, h⟩; exact hpn h
    simp [isQueue, hps, ha, this]
  · intro ha hR hexp
    simp [isQueue, hps, not_lt.mpr ha, refreshValid, resetAccess,
      startRefresh, hR, hexp, hpn]
  · intro ha hinv hG hC
    rcases hinv with h | h
    · simp [isQueue, hps, not_lt.mpr ha, refreshValid, generateValid,
        resetAccess, resetRefresh, startGenerate, h, hG, hC, hpn]
    · simp [isQueue, hps, not_lt.mpr ha, refreshValid, generateValid,
        resetAccess, resetRefresh, startGenerate, not_lt.mpr h, hG, hC, hpn]

/-- Witness for amended C7, exercising the queued branch of the conjunction
at the counterexample state and the proceed branch at a valid-access state. -/
theorem C7_async_admission_witness :
    (cxAsync.pending = ASYNC ∧ cxAsync.accessStore.exp ≤ 50 ∧
     cxAsync.config.hasRefresh = true ∧ cxAsync.refreshStore.exp > 50) ∧
    ((isQueue 50 cxAsync).2 = true ∧ (isQueue 50 cxAsync).1.pending = SYNC ∧
     (isQueue 50 cxAsync).1.genCount = cxAsync.genCount ∧
     (isQueue 50 cxAsync).1.renewCount = cxAsync.renewCount ∧
     (isQueue 50 cxAsync).1.refreshCount = cxAsync.refreshCount) :=
  ⟨⟨by decide, by decide, by decide, by decide⟩,
   (C7_async_admission cxAsync 50 (by decide)).2.1 (by decide) (by decide)
     (by decide)⟩

-- ----------------------------------------------------------------------
-- C8
-- ----------------------------------------------------------------------

/-- C8: with no `generate`, `renew`, or `refresh` strategy configured,
every call proceeds immediately — `isQueue` returns `false` regardless of
token state — and `pending` is left untouched (so it can never become
`SYNC`, keeping the hypothesis invariant).  On the degradation path (access
token invalid) admission resets both stores and drains the queue, so the
call is dispatched without a usable token and queued callers do not stall. -/
theorem C8_no_strategy_degradation (s : QState) (t : Int)
    (hg : s.config.hasGenerate = false)
    (hrn : s.config.hasRenew = false)
    (hrf : s.config.hasRefresh = false)
    (hp : s.pending ≠ SYNC) :
    (isQueue t s).2 = false ∧
    (isQueue t s).1.pending = s.pending ∧
    (s.accessStore.exp ≤ t →
      (isQueue t s).1.accessStore = emptyStore ∧
      (isQueue t s).1.refreshStore = emptyStore ∧
      (isQueue t s).1.queue = [] ∧
      (isQueue t s).1.dispatched = s.dispatched ++ s.queue) := by
  by_cases ha : s.accessStore.exp > t
  · have : ¬ (renewValid s t = true ∧ s.pending = NONE) := by
      rintro ⟨h, _⟩; simp [renewValid, hrn] at h
    refine ⟨?_, ?_, ?_⟩
    · simp [isQueue, hp, ha, this]
    · simp [isQueue, hp, ha, this]
    · intro h; exact absurd ha (not_lt.mpr h)
  · refine ⟨?_, ?_, ?_⟩ <;>
      simp [isQueue, hp, ha, refreshValid, generateValid, resetAccess,
        resetRefresh, runQueueFx, hg, hrn, hrf]

/-- Witness for C8: a bare coordinator with stale tokens and two queued
callers proceeds, resets both stores, and drains the queue. -/
theorem C8_no_strategy_degradation_witness :
    (cxBare.config.hasGenerate = false ∧ cxBare.config.hasRenew = false ∧
     cxBare.config.hasRefresh = false ∧ cxBare.pending ≠ SYNC) ∧
    ((isQueue 50 cxBare).2 = false ∧
     (isQueue 50 cxBare).1.pending = cxBare.pending ∧
     (cxBare.accessStore.exp ≤ 50 →
       (isQueue 50 cxBare).1.accessStore = emptyStore ∧
       (isQueue 50 cxBare).1.refreshStore = emptyStore ∧
       (isQueue 50 cxBare).1.queue = [] ∧
       (isQueue 50 cxBare).1.dispatched = cxBare.dispatched ++ cxBare.queue)) :=
  ⟨⟨by decide, by decide, by decide, by decide⟩,
   C8_no_strategy_degradation cxBare 50 (by decide) (by decide) (by decide)
     (by decide)⟩

-- ----------------------------------------------------------------------
-- C5
-- ----------------------------------------------------------------------

/-- C5: queue drain is FIFO by dispatch order — for every queue contents
and every assignment of eventual replay settlements, `runQueue` invokes the
replays in exactly arrival order, delivering to each handler its own
settlement; the drain does not depend on (i.e. never waits for) any
replay's settlement to decide the dispatch order. -/
theorem C5_fifo_dispatch (outcome : Nat → Except Nat Nat) (q : List Handler) :
    runQueue outcome q = q.map (fun h => (h.id, outcome h.id)) := by
  induction q with
  | nil => rfl
  | cons h rest ih =>
    cases rest with
    | nil => rfl
    | cons r rs =>
      simp only [runQueue, List.map_cons] at *
      rw [ih]

-- ----------------------------------------------------------------------
-- C9
-- ----------------------------------------------------------------------

/-- C9 as stated is false on one point: the injection guard is JS
truthiness, not a null check.  With `accessStore.token` equal to the NON-NULL
empty string, `send` injects no `Authorization` header at all: the options
pass through unchanged. -/
theorem C9_counterexample :
    applyAuth (some "") cxOptions = cxOptions ∧
    (applyAuth (some "") cxOptions).headers "Authorization" = none := by
  constructor
  · rfl
  · rfl

/-- C9 amended: call options are passed through untouched except for header
injection; when `accessStore.token` is truthy (non-null AND non-empty) an
`Authorization: Bearer <token>` header is added, the caller's own headers
are preserved for every key other than `Authorization`, every non-header
option field is untouched, and a null token changes nothing. -/
theorem C9_header_injection (tk : String) (o : Options) (htk : tk ≠ "") :
    (applyAuth (some tk) o).headers "Authorization" =
      some ("Bearer " ++ tk) ∧
    (∀ k, k ≠ "Authorization" → (applyAuth (some tk) o).headers k =
      o.headers k) ∧
    (applyAuth (some tk) o).rest = o.rest ∧
    applyAuth none o = o := by
  refine ⟨?_, ?_, ?_, rfl⟩
  · simp [applyAuth, htk]
  · intro k hk
    simp [applyAuth, htk, hk]
  · simp [applyAuth, htk]

/-- Witness for amended C9 with a concrete token and concrete options. -/
theorem C9_header_injection_witness :
    ("tok" ≠ "") ∧
    ((applyAuth (some "tok") cxOptions).headers "Authorization" =
       some ("Bearer " ++ "tok") ∧
     (∀ k, k ≠ "Authorization" →
       (applyAuth (some "tok") cxOptions).headers k = cxOptions.headers k) ∧
     (applyAuth (some "tok") cxOptions).rest = cxOptions.rest ∧
     applyAuth none cxOptions = cxOptions) :=
  ⟨by decide, C9_header_injection "tok" cxOptions (by decide)⟩

-- ----------------------------------------------------------------------
-- C10
-- ----------------------------------------------------------------------

/-- C10: `send` mutates the caller-supplied options in place, so replay and
401 retry — which re-invoke `send` with the very same options object — see
the headers left by earlier attempts.  Modelling the shared object by
threading the same options value through successive attempts: a Bearer
header attached while token `t1` was present persists through a later
attempt with no token (it stays visible in the caller's object and goes
out on the wire), is only overwritten when a new truthy token `t2` is
present, and no other header key is disturbed. -/
theorem C10_options_mutated_in_place (o : Options) (t1 t2 : String)
    (h1 : t1 ≠ "") (h2 : t2 ≠ "") :
    (applyAuth none (applyAuth (some t1) o)).headers "Authorization" =
      some ("Bearer " ++ t1) ∧
    (applyAuth (some t2) (applyAuth (some t1) o)).headers "Authorization" =
      some ("Bearer " ++ t2) ∧
    (∀ k, k ≠ "Authorization" →
      (applyAuth none (applyAuth (some t1) o)).headers k = o.headers k) := by
  refine ⟨?_, ?_, ?_⟩
  · simp [applyAuth, h1]
  · simp [applyAuth, h1, h2]
  · intro k hk
    simp [applyAuth, h1, hk]

/-- Witness for C10 with concrete tokens and options. -/
theorem C10_options_mutated_in_place_witness :
    ("t1" ≠ "" ∧ "t2" ≠ "") ∧
    ((applyAuth none (applyAuth (some "t1") cxOptions)).headers
        "Authorization" = some ("Bearer " ++ "t1") ∧
     (applyAuth (some "t2") (applyAuth (some "t1") cxOptions)).headers
        "Authorization" = some ("Bearer " ++ "t2") ∧
     (∀ k, k ≠ "Authorization" →
       (applyAuth none (applyAuth (some "t1") cxOptions)).headers k =
         cxOptions.headers k)) :=
  ⟨⟨by decide, by decide⟩,
   C10_options_mutated_in_place cxOptions "t1" "t2" (by decide) (by decide)⟩

-- ----------------------------------------------------------------------
-- Shape lemmas for the credential-operation chains
-- ----------------------------------------------------------------------

/-- A configured `generate()` emits exactly one invocation and one
`finally`, and leaves `pending = NONE` with the queue drained. -/
theorem generateRun_shape (o : COutcome) (s : QState)
    (hG : s.config.hasGenerate = true) :
    (generateRun o s).trace = [Ev.invokeGenerate, Ev.settle] ∧
    (generateRun o s).state.pending = NONE ∧
    (generateRun o s).state.queue = [] := by
  cases o <;> simp [generateRun, hG, settleFx, runQueueFx]

/-- A configured `refresh()` chain always starts by invoking
`config.refresh`, ends with its own `finally`, balances one `finally` per
callback invocation, and leaves `pending = NONE` with the queue drained. -/
theorem refreshRun_shape (o oGen : COutcome) (s : QState)
    (hRf : s.config.hasRefresh = true) :
    (refreshRun o oGen s).state.pending = NONE ∧
    (refreshRun o oGen s).state.queue = [] ∧
    settleCount (refreshRun o oGen s).trace =
      invokeCount (refreshRun o oGen s).trace ∧
    (refreshRun o oGen s).trace.getLast? = some Ev.settle ∧
    (∃ tl, (refreshRun o oGen s).trace = Ev.invokeRefresh :: tl) := by
  cases o with
  | ok acc ref =>
    refine ⟨?_, ?_, ?_, ?_, ⟨[Ev.settle], ?_⟩⟩ <;>
      simp [refreshRun, hRf, settleFx, runQueueFx] <;> decide
  | fail e acc ref =>
    by_cases hg :
        generateValid (resetRefresh (applyStores (startRefresh s) acc ref)) =
          true
    · have hG : s.config.hasGenerate = true := by
        have h := hg
        simp [generateValid, resetRefresh, applyStores, startRefresh] at h
        exact h.1
      obtain ⟨htr, hpend, hq⟩ := generateRun_shape oGen
        (resetRefresh (applyStores (startRefresh s) acc ref)) hG
      have htrace : (refreshRun (COutcome.fail e acc ref) oGen s).trace =
          [Ev.invokeRefresh, Ev.invokeGenerate, Ev.settle, Ev.settle] := by
        simp [refreshRun, hRf, hg, htr]
      have hstate : (refreshRun (COutcome.fail e acc ref) oGen s).state =
          settleFx (generateRun oGen
            (resetRefresh (applyStores (startRefresh s) acc ref))).state := by
        simp [refreshRun, hRf, hg]
      refine ⟨?_, ?_, ?_, ?_, ?_⟩
      · rw [hstate]; simp [settleFx, runQueueFx]
      · rw [hstate]; simp [settleFx, runQueueFx]
      · rw [htrace]; decide
      · rw [htrace]; decide
      · exact ⟨[Ev.invokeGenerate, Ev.settle, Ev.settle], htrace⟩
    · have htrace : (refreshRun (COutcome.fail e acc ref) oGen s).trace =
          [Ev.invokeRefresh, Ev.settle] := by
        simp [refreshRun, hRf, hg]
      have hstate : (refreshRun (COutcome.fail e acc ref) oGen s).state =
          settleFx (resetRefresh (applyStores (startRefresh s) acc ref)) := by
        simp [refreshRun, hRf, hg]
      refine ⟨?_, ?_, ?_, ?_, ?_⟩
      · rw [hstate]; simp [settleFx, runQueueFx]
      · rw [hstate]; simp [settleFx, runQueueFx]
      · rw [htrace]; decide
      · rw [htrace]; decide
      · exact ⟨[Ev.settle], htrace⟩

-- ----------------------------------------------------------------------
-- C3
-- ----------------------------------------------------------------------

/-- C3 as stated is false: one top-level admission trigger (a failing
`renew` that falls back to a succeeding `refresh`) runs the
pending-reset-plus-drain TWICE — once in `refresh`'s own `finally` and once
more in `renew`'s — not exactly once. -/
theorem C3_counterexample :
    settleCount (renewRun (COutcome.fail 1 emptyStore refShort)
      (COutcome.ok emptyStore emptyStore) (COutcome.ok emptyStore emptyStore)
      50 cxChain).trace = 2 := by
  decide

/-- C3 amended: after the whole fallback chain of a triggered `renew`
settles, `pending` is `NONE` and the queue has been drained, and the
top-level operation's pending-reset-plus-drain runs LAST, after every
chained operation is awaited (the trace ends with it); but the
reset-plus-drain runs once per operation invoked in the chain — each
operation's own `finally` — so up to three times per top-level admission
trigger, not exactly once. -/
theorem C3_settle_after_chain (o oRef oGen : COutcome) (t : Int) (s : QState)
    (hR : s.config.hasRenew = true) :
    (renewRun o oRef oGen t s).state.pending = NONE ∧
    (renewRun o oRef oGen t s).state.queue = [] ∧
    settleCount (renewRun o oRef oGen t s).trace =
      invokeCount (renewRun o oRef oGen t s).trace ∧
    (renewRun o oRef oGen t s).trace.getLast? = some Ev.settle := by
  cases o with
  | ok acc ref =>
    refine ⟨?_, ?_, ?_, ?_⟩ <;>
      simp [renewRun, hR, settleFx, runQueueFx] <;> decide
  | fail e acc ref =>
    by_cases hrf :
        refreshValid (resetAccess (applyStores (startRenew s) acc ref)) t =
          true
    · have hRf : s.config.hasRefresh = true := by
        have h := hrf
        simp [refreshValid, resetAccess, applyStores, startRenew] at h
        exact h.1
      obtain ⟨hp1, hq1, hc1, hl1, tl, htl⟩ := refreshRun_shape oRef oGen
        (resetAccess (applyStores (startRenew s) acc ref)) hRf
      have htrace : (renewRun (COutcome.fail e acc ref) oRef oGen t s).trace =
          Ev.invokeRenew :: (refreshRun oRef oGen
            (resetAccess (applyStores (startRenew s) acc ref))).trace ++
            [Ev.settle] := by
        simp [renewRun, hR, hrf]
      have hstate : (renewRun (COutcome.fail e acc ref) oRef oGen t s).state =
          settleFx (refreshRun oRef oGen
            (resetAccess (applyStores (startRenew s) acc ref))).state := by
        simp [renewRun, hR, hrf]
      refine ⟨?_, ?_, ?_, ?_⟩
      · rw [hstate]; simp [settleFx, runQueueFx]
      · rw [hstate]; simp [settleFx, runQueueFx]
      · rw [htrace]
        simp only [settleCount, invokeCount, List.countP_cons,
          List.countP_append] at *
        simp [isSettle, isInvoke]
        omega
      · rw [htrace]
        show ((Ev.invokeRenew :: (refreshRun oRef oGen
            (resetAccess (applyStores (startRenew s) acc ref))).trace) ++
            Ev.settle :: []).getLast? = some Ev.settle
        rw [List.getLast?_append_cons]
        rfl
    · by_cases hgv : generateValid (resetRefresh (resetAccess
          (applyStores (startRenew s) acc ref))) = true
      · have hG : s.config.hasGenerate = true := by
          have h := hgv
          simp [generateValid, resetRefresh, resetAccess, applyStores,
            startRenew] at h
          exact h.1
        obtain ⟨htr, hpend, hq⟩ := generateRun_shape oGen
          (resetRefresh (resetAccess (applyStores (startRenew s) acc ref))) hG
        have htrace :
            (renewRun (COutcome.fail e acc ref) oRef oGen t s).trace =
            [Ev.invokeRenew, Ev.invokeGenerate, Ev.settle, Ev.settle] := by
          simp [renewRun, hR, hrf, hgv, htr]
        have hstate :
            (renewRun (COutcome.fail e acc ref) oRef oGen t s).state =
            settleFx (generateRun oGen (resetRefresh (resetAccess
              (applyStores (startRenew s) acc ref)))).state := by
          simp [renewRun, hR, hrf, hgv]
        refine ⟨?_, ?_, ?_, ?_⟩
        · rw [hstate]; simp [settleFx, runQueueFx]
        · rw [hstate]; simp [settleFx, runQueueFx]
        · rw [htrace]; decide
        · rw [htrace]; decide
      · have htrace :
            (renewRun (COutcome.fail e acc ref) oRef oGen t s).trace =
            [Ev.invokeRenew, Ev.settle] := by
          simp [renewRun, hR, hrf, hgv]
        have hstate :
            (renewRun (COutcome.fail e acc ref) oRef oGen t s).state =
            settleFx (resetRefresh (resetAccess
              (applyStores (startRenew s) acc ref))) := by
          simp [renewRun, hR, hrf, hgv]
        refine ⟨?_, ?_, ?_, ?_⟩
        · rw [hstate]; simp [settleFx, runQueueFx]
        · rw [hstate]; simp [settleFx, runQueueFx]
        · rw [htrace]; decide
        · rw [htrace]; decide

/-- Witness for amended C3 on a concrete failing chain. -/
theorem C3_settle_after_chain_witness :
    (cxChain.config.hasRenew = true) ∧
    ((renewRun (COutcome.fail 1 emptyStore refShort)
        (COutcome.ok emptyStore emptyStore)
        (COutcome.ok emptyStore emptyStore) 50 cxChain).state.pending =
        NONE ∧
     (renewRun (COutcome.fail 1 emptyStore refShort)
        (COutcome.ok emptyStore emptyStore)
        (COutcome.ok emptyStore emptyStore) 50 cxChain).state.queue = [] ∧
     settleCount (renewRun (COutcome.fail 1 emptyStore refShort)
        (COutcome.ok emptyStore emptyStore)
        (COutcome.ok emptyStore emptyStore) 50 cxChain).trace =
       invokeCount (renewRun (COutcome.fail 1 emptyStore refShort)
        (COutcome.ok emptyStore emptyStore)
        (COutcome.ok emptyStore emptyStore) 50 cxChain).trace ∧
     (renewRun (COutcome.fail 1 emptyStore refShort)
        (COutcome.ok emptyStore emptyStore)
        (COutcome.ok emptyStore emptyStore) 50 cxChain).trace.getLast? =
       some Ev.settle) :=
  ⟨by decide,
   C3_settle_after_chain (COutcome.fail 1 emptyStore refShort)
     (COutcome.ok emptyStore emptyStore) (COutcome.ok emptyStore emptyStore)
     50 cxChain (by decide)⟩

-- ----------------------------------------------------------------------
-- C2
-- ----------------------------------------------------------------------

/-- C2 as stated is false on its last sentence: when renew, refresh and
generate ALL fail (errors 1, 2, 3), the error callers observe is the
GENERATE error 3 — the error of the last attempted operation — not the
original triggering renew error 1.  (`renew`'s catch returns the chained
`refresh()` promise, so the chain's rejection replaces the original.) -/
theorem C2_counterexample :
    (renewRun (COutcome.fail 1 emptyStore refShort)
      (COutcome.fail 2 emptyStore emptyStore)
      (COutcome.fail 3 emptyStore emptyStore) 50 cxChain).result =
      Except.error 3 ∧
    (renewRun (COutcome.fail 1 emptyStore refShort)
      (COutcome.fail 2 emptyStore emptyStore)
      (COutcome.fail 3 emptyStore emptyStore) 50 cxChain).trace =
      [Ev.invokeRenew, Ev.invokeRefresh, Ev.invokeGenerate, Ev.settle,
       Ev.settle, Ev.settle] ∧
    (Except.error 3 : Except Nat Unit) ≠ Except.error 1 := by
  refine ⟨rfl, rfl, ?_⟩
  simp

/-- C2 amended: the fallback chain runs in order — renew failure resets the
access store, then attempts refresh if `refreshValid(now)` holds, else
resets the refresh store and attempts generate if `generateValid()` holds,
else propagates the original renew error; refresh failure resets the
refresh store and attempts generate if `generateValid()` holds, else
propagates its own error; generate failure sets `connected` to false and
propagates its own error.  When every step fails, callers observe the error
of the LAST operation attempted; the ORIGINAL triggering error is observed
only when no fallback was attempted.  (`refreshValid(now)` at the catch is
spelled out on the catch-time state, whose refresh store is `r1`;
`generateValid()` reads only the untouched config.) -/
theorem C2_fallback_chain (s : QState) (t : Int) (e1 e2 e3 : Nat)
    (a1 r1 a2 r2 a3 r3 : Store) (oRef oGen : COutcome)
    (hR : s.config.hasRenew = true) :
    ((s.config.hasRefresh = false ∨ r1.exp ≤ t) →
     (s.config.hasGenerate = false ∨ s.config.connected = false) →
     (renewRun (COutcome.fail e1 a1 r1) oRef oGen t s).result =
        Except.error e1 ∧
     (renewRun (COutcome.fail e1 a1 r1) oRef oGen t s).trace =
        [Ev.invokeRenew, Ev.settle] ∧
     (renewRun (COutcome.fail e1 a1 r1) oRef oGen t s).state.accessStore =
        emptyStore ∧
     (renewRun (COutcome.fail e1 a1 r1) oRef oGen t s).state.refreshStore =
        emptyStore) ∧
    (s.config.hasRefresh = true → r1.exp > t →
     ∃ tl, (renewRun (COutcome.fail e1 a1 r1) oRef oGen t s).trace =
        Ev.invokeRenew :: Ev.invokeRefresh :: tl) ∧
    (s.config.hasRefresh = true → r1.exp > t →
     (s.config.hasGenerate = false ∨ s.config.connected = false) →
     (renewRun (COutcome.fail e1 a1 r1) (COutcome.fail e2 a2 r2) oGen t
        s).result = Except.error e2) ∧
    (s.config.hasRefresh = true → r1.exp > t →
     s.config.hasGenerate = true → s.config.connected = true →
     (renewRun (COutcome.fail e1 a1 r1) (COutcome.fail e2 a2 r2)
        (COutcome.fail e3 a3 r3) t s).result = Except.error e3 ∧
     (renewRun (COutcome.fail e1 a1 r1) (COutcome.fail e2 a2 r2)
        (COutcome.fail e3 a3 r3) t s).trace =
        [Ev.invokeRenew, Ev.invokeRefresh, Ev.invokeGenerate, Ev.settle,
         Ev.settle, Ev.settle] ∧
     (renewRun (COutcome.fail e1 a1 r1) (COutcome.fail e2 a2 r2)
        (COutcome.fail e3 a3 r3) t s).state.config.connected = false) ∧
    ((s.config.hasRefresh = false ∨ r1.exp ≤ t) →
     s.config.hasGenerate = true → s.config.connected = true →
     (renewRun (COutcome.fail e1 a1 r1) oRef (COutcome.fail e3 a3 r3) t
        s).result = Except.error e3 ∧
     (renewRun (COutcome.fail e1 a1 r1) oRef (COutcome.fail e3 a3 r3) t
        s).trace = [Ev.invokeRenew, Ev.invokeGenerate, Ev.settle,
          Ev.settle] ∧
     (renewRun (COutcome.fail e1 a1 r1) oRef (COutcome.fail e3 a3 r3) t
        s).state.config.connected = false) ∧
    (s.config.hasRefresh = true →
     (s.config.hasGenerate = false ∨ s.config.connected = false) →
     (refreshRun (COutcome.fail e2 a2 r2) oGen s).result = Except.error e2 ∧
     (refreshRun (COutcome.fail e2 a2 r2) oGen s).state.refreshStore =
        emptyStore) ∧
    (s.config.hasGenerate = true →
     (generateRun (COutcome.fail e3 a3 r3) s).result = Except.error e3 ∧
     (generateRun (COutcome.fail e3 a3 r3) s).state.config.connected =
        false) := by
  refine ⟨?_, ?_, ?_, ?_, ?_, ?_, ?_⟩
  · intro hrfInv hgvInv
    rcases hrfInv with h | h <;> rcases hgvInv with h' | h' <;>
      simp [renewRun, hR, refreshValid, generateValid, resetAccess,
        resetRefresh, applyStores, startRenew, settleFx, runQueueFx,
        emptyStore, h, h', not_lt.mpr]
  · intro hRf hexp
    have hrf : refreshValid (resetAccess
        (applyStores (startRenew s) a1 r1)) t = true := by
      simp [refreshValid, resetAccess, applyStores, startRenew, hRf, hexp]
    obtain ⟨_, _, _, _, tl, htl⟩ := refreshRun_shape oRef oGen
      (resetAccess (applyStores (startRenew s) a1 r1)) hRf
    refine ⟨tl ++ [Ev.settle], ?_⟩
    simp [renewRun, hR, hrf, htl]
  · intro hRf hexp hgvInv
    rcases hgvInv with h' | h' <;>
      simp [renewRun, refreshRun, hR, refreshValid, generateValid,
        resetAccess, resetRefresh, applyStores, startRenew, startRefresh,
        settleFx, runQueueFx, hRf, hexp, h']
  · intro hRf hexp hG hC
    refine ⟨?_, ?_, ?_⟩ <;>
      simp [renewRun, refreshRun, generateRun, hR, refreshValid,
        generateValid, resetAccess, resetRefresh, applyStores, startRenew,
        startRefresh, startGenerate, settleFx, runQueueFx, hRf, hexp, hG,
        hC]
  · intro hrfInv hG hC
    rcases hrfInv with h | h <;>
      · refine ⟨?_, ?_, ?_⟩ <;>
          simp [renewRun, generateRun, hR, refreshValid, generateValid,
            resetAccess, resetRefresh, applyStores, startRenew,
            startGenerate, settleFx, runQueueFx, hG, hC, h, not_lt.mpr]
  · intro hRf hgvInv
    rcases hgvInv with h' | h' <;>
      simp [refreshRun, hRf, generateValid, resetRefresh, applyStores,
        startRefresh, settleFx, runQueueFx, emptyStore, h']
  · intro hG
    constructor <;> simp [generateRun, hG, settleFx, runQueueFx, applyStores]

/-- Witness for amended C2, exercising the all-fail branch of the
conjunction at a concrete state. -/
theorem C2_fallback_chain_witness :
    (cxChain.config.hasRenew = true ∧ cxChain.config.hasRefresh = true ∧
     refShort.exp > 50 ∧ cxChain.config.hasGenerate = true ∧
     cxChain.config.connected = true) ∧
    ((renewRun (COutcome.fail 11 emptyStore refShort)
        (COutcome.fail 22 emptyStore emptyStore)
        (COutcome.fail 33 emptyStore emptyStore) 50 cxChain).result =
        Except.error 33 ∧
     (renewRun (COutcome.fail 11 emptyStore refShort)
        (COutcome.fail 22 emptyStore emptyStore)
        (COutcome.fail 33 emptyStore emptyStore) 50 cxChain).trace =
        [Ev.invokeRenew, Ev.invokeRefresh, Ev.invokeGenerate, Ev.settle,
         Ev.settle, Ev.settle] ∧
     (renewRun (COutcome.fail 11 emptyStore refShort)
        (COutcome.fail 22 emptyStore emptyStore)
        (COutcome.fail 33 emptyStore emptyStore) 50
        cxChain).state.config.connected = false) :=
  ⟨⟨by decide, by decide, by decide, by decide, by decide⟩,
   (C2_fallback_chain cxChain 50 11 22 33 emptyStore refShort emptyStore
      emptyStore emptyStore emptyStore defaultOutcome defaultOutcome
      (by decide)).2.2.2.1 (by decide) (by decide) (by decide) (by decide)⟩

-- ----------------------------------------------------------------------
-- C4
-- ----------------------------------------------------------------------

/-- C4 as stated is false: one call whose first transport attempt gets a
401 is retried; the retry (replayed behind a successful `refresh`) gets a
SECOND consecutive 401, and because `refreshValid` still holds at that
moment it is retried AGAIN rather than surfaced — the call ends up
succeeding on its third transport attempt instead of failing after two. -/
theorem C4_counterexample :
    (send1 9 [TOut.err 401, TOut.err 401, TOut.ok]
      [COutcome.ok accFresh refLong, COutcome.ok accFresh refLong] []
      cx401).map (fun r => (r.result, r.attempts)) =
      some (Except.ok (), 3) := by
  rfl

/-- C4 amended: on a 401 the access store is reset and the call is retried
by recursion into `send` exactly when `refreshValid(now) OR generateValid()`
holds at the moment of the failure — `handleErrors` keeps no retry counter,
so the rule is the same for every consecutive 401: a second consecutive 401
is retried again whenever a recovery path is still valid (as the concrete
run shows, three transport attempts for one call), and a 401 is surfaced to
the caller only when neither `refreshValid(now)` nor `generateValid()`
holds. -/
theorem C4_retry_rule :
    (∀ (status : Nat) (t : Int) (s : QState),
      (handleErrorsStep status t s).2 = true ↔
        (status = 401 ∧ (refreshValid (resetAccess s) t = true ∨
          generateValid s = true))) ∧
    (send1 13 [TOut.err 401, TOut.err 401, TOut.err 401, TOut.ok]
      [COutcome.ok accFresh refLong, COutcome.ok accFresh refLong,
       COutcome.ok accFresh refLong] [] cx401).map
      (fun r => (r.result, r.attempts)) = some (Except.ok (), 4) := by
  constructor
  · intro status t s
    have hge : generateValid (resetAccess s) = generateValid s := rfl
    constructor
    · intro h
      by_cases hs : status = 401
      · refine ⟨hs, ?_⟩
        by_cases hr : refreshValid (resetAccess s) t = true ∨
            generateValid s = true
        · exact hr
        · simp [handleErrorsStep, hs, hge, hr] at h
      · simp [handleErrorsStep, hs] at h
    · rintro ⟨hs, hr⟩
      simp [handleErrorsStep, hs, hge, hr]
  · rfl

end FetchQueue
